import Mathlib

/-!
Shallow embedding of the `django-api` task application
(repository `linder3hs/codigo-g1-vibecoding`).

Conventions of the embedding:
* Python strings are Lean `String`s; `str.strip()` is `String.trim`,
  `str.isalnum()` is checked with `Char.isAlphanum` over the characters.
* Timestamps are abstract `Nat` instants supplied by the caller as `now`
  (the code calls `timezone.now()`); calendar dates are derived with `dateOf`.
  The `updated_at` column is not tracked: no claim mentions it.
* Exceptions are values: functions that can raise return `Except PyError`.
  `serializers.ValidationError`, `ValueError` and Python `NameError`
  (raised when a function body reads an unbound local name) are the
  constructors.
* Users are identified by their primary key (`Nat`); the HTTP layer is
  assumed to have authenticated the requester, whose id is passed in.
-/

namespace TodoApi

/-- Python exception values raised by the validation code. -/
inductive PyError where
  | validationError (msg : String)
  | valueError (msg : String)
  | nameError (missing : String)
  deriving Repr, DecidableEq

/-- HTTP-level outcomes of a view: 400, 404 and 500 responses. -/
inductive ApiError where
  | badRequest (msg : String)
  | notFound
  | serverError
  deriving Repr, DecidableEq

/-- Python `str.strip()`: drop leading and trailing whitespace.  Written
with structural recursion on the character list so that the kernel can
evaluate it (Lean `String.trim` is defined by well-founded recursion). -/
def pyStrip (s : String) : String :=
  ⟨((s.toList.dropWhile Char.isWhitespace).reverse.dropWhile
      Char.isWhitespace).reverse⟩

/-- Python `str.lower()`, character by character. -/
def pyLower (s : String) : String := ⟨s.toList.map Char.toLower⟩

/-- `tasks/models.py` `Task`: the persisted columns the claims mention. -/
structure Task where
  id : Nat
  title : String
  description : Option String
  status : String
  user : Nat
  created_at : Nat
  completed_at : Option Nat
  deriving Repr, DecidableEq

/-- `Task.STATUS_CHOICES` from `tasks/models.py`. -/
def STATUS_CHOICES : List (String × String) :=
  [("pendiente", "Pendiente"),
   ("en_progreso", "En Progreso"),
   ("completada", "Completada")]

/-- `[choice[0] for choice in Task.STATUS_CHOICES]`. -/
def valid_statuses : List String := STATUS_CHOICES.map Prod.fst

/-- `TaskValidationUtils.TITLE_MIN_LENGTH`. -/
def TITLE_MIN_LENGTH : Nat := 3

/-- `TaskValidationUtils.TITLE_MAX_LENGTH`. -/
def TITLE_MAX_LENGTH : Nat := 200

/-- `TaskValidationUtils.DESCRIPTION_MIN_LENGTH`. -/
def DESCRIPTION_MIN_LENGTH : Nat := 5

/-- `TaskValidationUtils.DESCRIPTION_MAX_LENGTH`. -/
def DESCRIPTION_MAX_LENGTH : Nat := 1000

/-- `TaskValidationUtils.FORBIDDEN_CHARS`: `< > \x7b \x7d [ ] & " '`. -/
def FORBIDDEN_CHARS : List Char :=
  ['<', '>', '\x7b', '\x7d', '[', ']', '&', '\x22', '\x27']

/-- `TaskValidationUtils.validate_title_basic` (`tasks/utils.py` 27-75).
The Python body cleans the input into the local `cleaned_value` but its
final statement is `return cleaned_title`, a name never bound in that
scope, so every input that passes all checks raises `NameError`. -/
def validate_title_basic (value : String) : Except PyError String :=
  if pyStrip value = "" then
    .error (.validationError "El titulo es obligatorio y no puede estar vacio.")
  else
    let cleaned_value := pyStrip value
    if cleaned_value.length < TITLE_MIN_LENGTH then
      .error (.validationError "El titulo debe tener al menos 3 caracteres.")
    else if cleaned_value.length > TITLE_MAX_LENGTH then
      .error (.validationError "El titulo no puede exceder los 200 caracteres.")
    else if FORBIDDEN_CHARS.any (fun c => cleaned_value.toList.contains c) then
      .error (.validationError "El titulo contiene caracteres no permitidos.")
    else if !(cleaned_value.toList.any Char.isAlphanum) then
      .error (.validationError "El titulo debe contener al menos un caracter alfanumerico.")
    else
      .error (.nameError "cleaned_title")

/-- `TaskValidationUtils.validate_title_complete` (`tasks/utils.py` 109-130).
Runs the basic validation, then (when a user is given) the uniqueness
check, and finally executes `return cleaned_value` - a name unbound in
this scope (the local is `cleaned_title`), hence `NameError`.  The
uniqueness check is the per-user case-insensitive title lookup. -/
def validate_title_complete (value : String) (user : Option Nat)
    (db : List Task) (exclude_pk : Option Nat) : Except PyError String :=
  match validate_title_basic value with
  | .error e => .error e
  | .ok cleaned_title =>
      match user with
      | some u =>
          if (db.filter (fun t =>
                t.user == u && pyLower t.title == pyLower cleaned_title
                  && exclude_pk != some t.id)).isEmpty then
            .error (.nameError "cleaned_value")
          else
            .error (.validationError "Ya tienes una tarea con este titulo.")
      | none => .error (.nameError "cleaned_value")

/-- `TaskValidationUtils.validate_description_basic` (`tasks/utils.py` 164-208).
`if not value` treats both a missing value and the empty string as absent. -/
def validate_description_basic (value : Option String) (required : Bool) :
    Except PyError (Option String) :=
  match value with
  | none =>
      if required then .error (.validationError "La descripcion es obligatoria.")
      else .ok none
  | some v =>
      if v = "" then
        if required then .error (.validationError "La descripcion es obligatoria.")
        else .ok none
      else
        let cleaned_value := pyStrip v
        if cleaned_value = "" then
          if required then .error (.validationError "La descripcion no puede estar vacia.")
          else .ok none
        else if cleaned_value.length > DESCRIPTION_MAX_LENGTH then
          .error (.validationError "La descripcion no puede exceder los 1000 caracteres.")
        else if cleaned_value.length < DESCRIPTION_MIN_LENGTH then
          .error (.validationError "La descripcion debe tener al menos 5 caracteres si se proporciona.")
        else
          .ok (some cleaned_value)

/-- `TaskValidationUtils.validate_status_basic` (`tasks/utils.py` 210-232). -/
def validate_status_basic (value : String) : Except PyError String :=
  if value ∉ valid_statuses then
    .error (.validationError "Estado invalido.")
  else
    .ok value

/-- `TaskValidationUtils.validate_status_for_creation` (`tasks/utils.py` 234-256). -/
def validate_status_for_creation (value : String) : Except PyError String :=
  match validate_status_basic value with
  | .error e => .error e
  | .ok validated_status =>
      if validated_status = "completada" then
        .error (.validationError
          "Una nueva tarea no puede crearse con estado completada. Use pendiente o en_progreso.")
      else
        .ok validated_status

/-- The `valid_transitions` dict of
`TaskValidationUtils.validate_status_transition`, with `dict.get`
defaulting to the empty list. -/
def valid_transitions (current : String) : List String :=
  if current = "pendiente" then ["en_progreso", "completada"]
  else if current = "en_progreso" then ["pendiente", "completada"]
  else if current = "completada" then ["pendiente", "en_progreso"]
  else []

/-- `TaskValidationUtils.validate_status_transition` (`tasks/utils.py` 258-283). -/
def validate_status_transition (current_status new_status : String) :
    Except PyError Unit :=
  if current_status ≠ new_status
      ∧ new_status ∉ valid_transitions current_status then
    .error (.validationError "No se puede cambiar de estado.")
  else
    .ok ()

/-- `TaskValidationUtils.validate_ownership` (`tasks/utils.py` 318-333). -/
def validate_ownership (inst : Task) (user : Nat) : Except PyError Unit :=
  if inst.user ≠ user then
    .error (.validationError "No tienes permisos para realizar esta accion en esta tarea.")
  else
    .ok ()

/-- `Task.mark_as_completed` (`tasks/models.py` 92-104): returns the saved
task together with the boolean the method returns. -/
def Task.mark_as_completed (t : Task) (now : Nat) : Task × Bool :=
  if t.status ≠ "completada" then
    ({ t with status := "completada", completed_at := some now }, true)
  else
    (t, false)

/-- `Task.mark_as_pending` (`tasks/models.py` 106-118). -/
def Task.mark_as_pending (t : Task) : Task × Bool :=
  if t.status ≠ "pendiente" then
    ({ t with status := "pendiente", completed_at := none }, true)
  else
    (t, false)

/-- `Task.mark_as_in_progress` (`tasks/models.py` 120-132). -/
def Task.mark_as_in_progress (t : Task) : Task × Bool :=
  if t.status ≠ "en_progreso" then
    ({ t with status := "en_progreso", completed_at := none }, true)
  else
    (t, false)

/-- `Task.change_status` (`tasks/models.py` 134-165): raises `ValueError`
on an unknown status, otherwise saves the new status and maintains
`completed_at`, returning whether anything changed. -/
def Task.change_status (t : Task) (new_status : String) (now : Nat) :
    Except PyError (Task × Bool) :=
  if new_status ∉ valid_statuses then
    .error (.valueError ("Estado invalido: " ++ new_status))
  else if t.status ≠ new_status then
    .ok ({ t with
            status := new_status,
            completed_at := if new_status = "completada" then some now else none },
         true)
  else
    .ok (t, false)

/-- `Task.is_completed` (`tasks/models.py` 167-175). -/
def Task.is_completed (t : Task) : Bool := t.status == "completada"

/-- The `validated_data` dict flowing through the serializers: each field
is present or absent.  A present `description` may carry `None`
(`validate_description_basic` returns `None` for an empty optional
description).  `completed_at` is injected by `handle_status_transition`;
it is never present in the data handed to `validate()` because the
serializers declare it read-only. -/
structure Attrs where
  title : Option String := none
  description : Option (Option String) := none
  status : Option String := none
  completed_at : Option (Option Nat) := none
  deriving Repr, DecidableEq

/-- `validated_data.keys()`. -/
def Attrs.keys (a : Attrs) : List String :=
  (if a.title.isSome then ["title"] else [])
    ++ (if a.description.isSome then ["description"] else [])
    ++ (if a.status.isSome then ["status"] else [])
    ++ (if a.completed_at.isSome then ["completed_at"] else [])

/-- `TaskValidationUtils.validate_completed_task_restrictions`
(`tasks/utils.py` 335-355): on a completed task every key except
`description` is forbidden. -/
def validate_completed_task_restrictions (inst : Task) (validated_data : Attrs) :
    Except PyError Unit :=
  if inst.status = "completada" then
    let forbidden_fields :=
      validated_data.keys.filter (fun field => !(["description"].contains field))
    if forbidden_fields ≠ [] then
      .error (.validationError
        "No se pueden modificar esos campos en una tarea completada. Solo se puede actualizar la descripcion.")
    else
      .ok ()
  else
    .ok ()

/-- `TaskValidationUtils.validate_complete_serializer_data`
(`tasks/utils.py` 357-398).  `user` is the authenticated requester that
`get_user_from_context` extracts from the request. -/
def validate_complete_serializer_data (attrs : Attrs) (user : Nat)
    (inst : Option Task) (for_creation : Bool) : Except PyError Attrs :=
  match inst, for_creation with
  | some i, false =>
      match validate_ownership i user with
      | .error e => .error e
      | .ok _ =>
          match validate_completed_task_restrictions i attrs with
          | .error e => .error e
          | .ok _ =>
              match attrs.status with
              | some s =>
                  match validate_status_transition i.status s with
                  | .error e => .error e
                  | .ok _ => .ok attrs
              | none => .ok attrs
  | _, _ => .ok attrs

/-- `TaskUpdateMixin.handle_status_transition` (`tasks/mixins.py` 19-41). -/
def handle_status_transition (inst : Task) (validated_data : Attrs) (now : Nat) :
    Attrs :=
  let old_status := inst.status
  let new_status := validated_data.status.getD old_status
  if old_status ≠ "completada" ∧ new_status = "completada" then
    { validated_data with completed_at := some (some now) }
  else if old_status = "completada" ∧ new_status ≠ "completada" then
    { validated_data with completed_at := some none }
  else
    validated_data

/-- The `setattr` loop of `TaskUpdateMixin.perform_update`
(`tasks/mixins.py` 62-63). -/
def setattrs (inst : Task) (d : Attrs) : Task :=
  { inst with
    title := d.title.getD inst.title,
    description := match d.description with
                   | some v => v
                   | none => inst.description,
    status := d.status.getD inst.status,
    completed_at := match d.completed_at with
                    | some v => v
                    | none => inst.completed_at }

/-- `TaskUpdateMixin.perform_update` (`tasks/mixins.py` 43-76): handles the
status transition, applies the fields and saves. -/
def perform_update (inst : Task) (validated_data : Attrs) (now : Nat) : Task :=
  setattrs inst (handle_status_transition inst validated_data now)

/-- `TaskUpdateSerializer.validate` followed by the inherited
`TaskUpdateMixin.update`: object-level validation then the field
application.  Field-level validation happens before this, in the views
below. -/
def serializer_update (inst : Task) (user : Nat) (attrs : Attrs) (now : Nat) :
    Except PyError Task :=
  match validate_complete_serializer_data attrs user (some inst) false with
  | .error e => .error e
  | .ok validated => .ok (perform_update inst validated now)

/-- `TaskCreateSerializer.create` (`tasks/serializers.py` 288-328) on
already-validated data: assigns the user, sets `created_at`, and sets
`completed_at` only in the (validation-dead) `status == completada`
branch. -/
def serializer_create (validated_title : String)
    (validated_description : Option String) (validated_status : String)
    (user : Nat) (now : Nat) (newId : Nat) : Task :=
  { id := newId,
    title := validated_title,
    description := validated_description,
    status := validated_status,
    user := user,
    created_at := now,
    completed_at := if validated_status = "completada" then some now else none }

/-- How Django REST framework maps an exception escaping a view:
`ValidationError` and `ValueError` surface as a 400 response, while a
`NameError` is unhandled and becomes a 500. -/
def toApiError : PyError → ApiError
  | .validationError m => .badRequest m
  | .valueError m => .badRequest m
  | .nameError _ => .serverError

/-- Insert a task into a list already sorted by `created_at` descending. -/
def insertDesc (x : Task) : List Task → List Task
  | [] => [x]
  | y :: ys =>
      if y.created_at < x.created_at then x :: y :: ys
      else y :: insertDesc x ys

/-- `order_by('-created_at')`: sort newest first (insertion sort, chosen
so the kernel can evaluate it; any sort realizes the ORM ordering). -/
def order_by_created_desc : List Task → List Task
  | [] => []
  | x :: xs => insertDesc x (order_by_created_desc xs)

/-- `TaskViewSet.get_queryset` (`tasks/views.py` 45-59): the tasks of the
authenticated user, newest first. -/
def get_queryset (db : List Task) (user : Nat) : List Task :=
  order_by_created_desc (db.filter (fun t => t.user == user))

/-- `self.get_object()`: primary-key lookup inside the user-filtered
queryset; `None` models the 404 raised by `get_object_or_404`. -/
def get_object (db : List Task) (user : Nat) (pk : Nat) : Option Task :=
  (get_queryset db user).find? (fun t => t.id == pk)

/-- `TaskViewSet._validate_status` (`tasks/views.py` 125-150).  `not
new_status` is true for a missing field and for the empty string. -/
def validate_status_view (new_status : Option String) : Except ApiError String :=
  match new_status with
  | none => .error (.badRequest "El campo status es requerido.")
  | some s =>
      if s = "" then .error (.badRequest "El campo status es requerido.")
      else if s ∉ valid_statuses then
        .error (.badRequest "Estado invalido.")
      else
        .ok s

/-- `TaskViewSet.change_status` (`tasks/views.py` 171-205): look the task
up in the requester-scoped queryset, validate the raw status, then call
the model method (whose `ValueError` would be folded to 400). -/
def change_status_view (db : List Task) (requester : Nat) (pk : Nat)
    (body_status : Option String) (now : Nat) : Except ApiError Task :=
  match get_object db requester pk with
  | none => .error .notFound
  | some task =>
      match validate_status_view body_status with
      | .error e => .error e
      | .ok s =>
          match task.change_status s now with
          | .error e => .error (toApiError e)
          | .ok (updated, _) => .ok updated

/-- `TaskViewSet.mark_completed` (`tasks/views.py` 152-169): sets
`status = completada` in the body and delegates to `change_status`. -/
def mark_completed_view (db : List Task) (requester : Nat) (pk : Nat)
    (now : Nat) : Except ApiError Task :=
  change_status_view db requester pk (some "completada") now

/-- A `PATCH /api/tasks/pk/` request carrying only the `status` field,
through `TaskUpdateSerializer`: field-level `validate_status`
(`validate_status_basic`), then object-level validation and the update
mixin. -/
def update_status_view (db : List Task) (requester : Nat) (pk : Nat)
    (s : String) (now : Nat) : Except ApiError Task :=
  match get_object db requester pk with
  | none => .error .notFound
  | some task =>
      match validate_status_basic s with
      | .error e => .error (toApiError e)
      | .ok s2 =>
          match serializer_update task requester { status := some s2 } now with
          | .error e => .error (toApiError e)
          | .ok updated => .ok updated

/-- A `PATCH /api/tasks/pk/` request carrying only the `description`
field, through `TaskUpdateSerializer`. -/
def update_description_view (db : List Task) (requester : Nat) (pk : Nat)
    (d : Option String) (now : Nat) : Except ApiError Task :=
  match get_object db requester pk with
  | none => .error .notFound
  | some task =>
      match validate_description_basic d false with
      | .error e => .error (toApiError e)
      | .ok dv =>
          match serializer_update task requester { description := some dv } now with
          | .error e => .error (toApiError e)
          | .ok updated => .ok updated

/-- A general `PATCH /api/tasks/pk/` request through
`TaskUpdateSerializer`: field-level validation of every supplied field in
declaration order (`title`, `description`, `status`), then the object
validation and update.  A syntactically valid title makes
`validate_title_for_update` raise `NameError` (see
`validate_title_basic`), which Django REST framework does not catch. -/
def update_view (db : List Task) (requester : Nat) (pk : Nat)
    (bodyTitle : Option String) (bodyDescription : Option (Option String))
    (bodyStatus : Option String) (now : Nat) : Except ApiError Task :=
  match get_object db requester pk with
  | none => .error .notFound
  | some task =>
      let titleV : Except PyError (Option String) :=
        match bodyTitle with
        | some v =>
            (validate_title_complete v (some requester) db (some task.id)).map some
        | none => .ok none
      match titleV with
      | .error e => .error (toApiError e)
      | .ok tv =>
          let descV : Except PyError (Option (Option String)) :=
            match bodyDescription with
            | some v => (validate_description_basic v false).map some
            | none => .ok none
          match descV with
          | .error e => .error (toApiError e)
          | .ok dv =>
              let statusV : Except PyError (Option String) :=
                match bodyStatus with
                | some v => (validate_status_basic v).map some
                | none => .ok none
              match statusV with
              | .error e => .error (toApiError e)
              | .ok sv =>
                  match serializer_update task requester
                      { title := tv, description := dv, status := sv } now with
                  | .error e => .error (toApiError e)
                  | .ok updated => .ok updated

/-- `GET /api/tasks/pk/` (`retrieve`, ownership enforced by
`get_queryset`). -/
def retrieve_view (db : List Task) (requester : Nat) (pk : Nat) :
    Except ApiError Task :=
  match get_object db requester pk with
  | none => .error .notFound
  | some task => .ok task

/-- `DELETE /api/tasks/pk/` (`destroy` with `perform_destroy`): returns
the database without the deleted row. -/
def destroy_view (db : List Task) (requester : Nat) (pk : Nat) :
    Except ApiError (List Task) :=
  match get_object db requester pk with
  | none => .error .notFound
  | some task => .ok (db.filter (fun t => !(t.id == task.id)))

/-- `POST /api/tasks/` through `TaskCreateSerializer`: field validation in
declaration order, then object validation (`for_creation = true`) and
`create`.  The title field is required. -/
def create_view (db : List Task) (requester : Nat) (bodyTitle : Option String)
    (bodyDescription : Option (Option String)) (bodyStatus : Option String)
    (now : Nat) (newId : Nat) : Except ApiError Task :=
  match bodyTitle with
  | none => .error (.badRequest "El titulo es obligatorio.")
  | some rawTitle =>
      match validate_title_complete rawTitle (some requester) db none with
      | .error e => .error (toApiError e)
      | .ok tv =>
          let descV : Except PyError (Option String) :=
            match bodyDescription with
            | some v => validate_description_basic v false
            | none => .ok none
          match descV with
          | .error e => .error (toApiError e)
          | .ok dv =>
              match validate_status_for_creation (bodyStatus.getD "pendiente") with
              | .error e => .error (toApiError e)
              | .ok sv => .ok (serializer_create tv dv sv requester now newId)

/-- `timezone.now().date()` and `completed_at__date`: the calendar date of
an abstract timestamp (seconds since the epoch, server timezone folded
into the abstraction). -/
def dateOf (ts : Nat) : Nat := ts / 86400

/-- Python `round(q)` on an exact value: nearest integer, ties to even. -/
def pyRound0 (q : ℚ) : ℤ :=
  let f : ℤ := ⌊q⌋
  let frac : ℚ := q - (f : ℚ)
  if frac < 1/2 then f
  else if (1 : ℚ)/2 < frac then f + 1
  else if f % 2 = 0 then f else f + 1

/-- Python `round(q, 2)` over exact rationals (the float representation
error of CPython is below this abstraction). -/
def pyRound2 (q : ℚ) : ℚ := (pyRound0 (q * 100) : ℚ) / 100

/-- The payload of `TaskViewSet.stats` (`tasks/views.py` 253-284). -/
structure TaskStats where
  total : Nat
  pendiente : Nat
  en_progreso : Nat
  completada : Nat
  completed_today : Nat
  completion_rate : ℚ
  deriving Repr, DecidableEq

/-- `TaskViewSet.stats` (`tasks/views.py` 253-284): per-status counts over
the requester's queryset, tasks completed today, and the completion
percentage rounded to two decimals (0 for an empty queryset). -/
def stats_view (db : List Task) (requester : Nat) (today : Nat) : TaskStats :=
  let queryset := get_queryset db requester
  let total := queryset.length
  let pendiente := (queryset.filter (fun t => t.status == "pendiente")).length
  let en_progreso :=
    (queryset.filter (fun t => t.status == "en_progreso")).length
  let completada :=
    (queryset.filter (fun t => t.status == "completada")).length
  let completed_today := (queryset.filter (fun t =>
      t.status == "completada" && t.completed_at.map dateOf == some today)).length
  { total := total, pendiente := pendiente, en_progreso := en_progreso,
    completada := completada, completed_today := completed_today,
    completion_rate :=
      if total > 0 then pyRound2 ((completada : ℚ) / (total : ℚ) * 100)
      else 0 }

/-- `INSTALLED_APPS` of `todoapi/settings/base.py` (lines 20-38). -/
def INSTALLED_APPS : List String :=
  ["django.contrib.admin", "django.contrib.auth",
   "django.contrib.contenttypes", "django.contrib.sessions",
   "django.contrib.messages", "django.contrib.staticfiles",
   "rest_framework", "rest_framework_simplejwt", "corsheaders",
   "django_filters", "drf_spectacular", "tasks", "authentication"]

/-- The simplejwt `BlacklistMixin` defines blacklist checking during
verification and the `blacklist()` method only when the
`token_blacklist` app is installed; the view relies on this (it catches
`AttributeError` from `refresh.blacklist()`). -/
def blacklist_app_installed : Bool :=
  INSTALLED_APPS.contains "rest_framework_simplejwt.token_blacklist"

/-- A decoded refresh token: its `jti`, `user_id` and `exp` claims.  A
malformed token string is modelled as `none` at the call sites. -/
structure RToken where
  jti : Nat
  user_id : Nat
  exp : Nat
  deriving Repr, DecidableEq

/-- Server-side token state: the known user ids and the blacklisted
`jti`s. -/
structure JwtState where
  users : List Nat
  blacklist : List Nat
  deriving Repr, DecidableEq

/-- `RefreshToken(refresh_token_str)` of the simplejwt library (the
external collaborator of `authentication/views.py`): raises `TokenError`
for a malformed or expired token and, when the blacklist app is
installed, for a blacklisted one. -/
def refresh_token_construct (st : JwtState) (now : Nat)
    (tok : Option RToken) : Except Unit RToken :=
  match tok with
  | none => .error ()
  | some r =>
      if r.exp ≤ now then .error ()
      else if blacklist_app_installed && st.blacklist.contains r.jti then
        .error ()
      else .ok r

/-- The body of a successful refresh response: whose user the new access
token is minted for, and the rotated refresh token when one was issued. -/
structure RefreshResponse where
  access_user : Nat
  new_refresh : Option RToken
  deriving Repr, DecidableEq

/-- `authentication/views.py` `refresh_token` (lines 259-336): construct
the refresh token (400 on `TokenError`), mint a new access token; when
the owning user resolves, also mint a new refresh token and try to
blacklist the old one - `refresh.blacklist()` raises `AttributeError`
when the blacklist app is missing, which the view swallows; when the
user does not resolve, answer with the access token alone. -/
def refresh_token_view (st : JwtState) (now : Nat) (fresh_jti : Nat)
    (tok : Option RToken) : Except ApiError (RefreshResponse × JwtState) :=
  match refresh_token_construct st now tok with
  | .error _ => .error (.badRequest "Refresh token invalido o expirado")
  | .ok refresh =>
      if refresh.user_id ∈ st.users then
        let new_refresh : RToken :=
          { jti := fresh_jti, user_id := refresh.user_id,
            exp := now + 7 * 86400 }
        let st2 : JwtState :=
          if blacklist_app_installed then
            { st with blacklist := refresh.jti :: st.blacklist }
          else st
        .ok ({ access_user := refresh.user_id,
               new_refresh := some new_refresh }, st2)
      else
        .ok ({ access_user := refresh.user_id, new_refresh := none }, st)

/-- A token state with one user and an empty blacklist. -/
def demoState : JwtState := { users := [1], blacklist := [] }

/-- The same state with no resolvable user. -/
def demoStateNoUser : JwtState := { users := [], blacklist := [] }

/-- A well-formed refresh token of user 1. -/
def demoToken : RToken := { jti := 5, user_id := 1, exp := 100 }

/-- The invariant of claim C4: `completed_at` is non-null exactly on
completed tasks. -/
def completedInvariant (t : Task) : Prop :=
  t.completed_at.isSome = true ↔ t.status = "completada"

/-- The transition table exactly as the specification states it:
pending to in_progress or completed, in_progress to pending or
completed, completed to pending or in_progress. -/
def claimed_transitions : List (String × String) :=
  [("pendiente", "en_progreso"), ("pendiente", "completada"),
   ("en_progreso", "pendiente"), ("en_progreso", "completada"),
   ("completada", "pendiente"), ("completada", "en_progreso")]

/-- Agreement of two endpoint outcomes in the sense of claim C2: the same
success/failure verdict, and on success the same resulting task. -/
def resultsAgree : Except ApiError Task → Except ApiError Task → Prop
  | .ok a, .ok b => a = b
  | .error _, .error _ => True
  | _, _ => False

/-- A sample well-formed pending task, used by the concrete witnesses. -/
def sampleTask : Task :=
  { id := 1, title := "Comprar leche", description := none,
    status := "pendiente", user := 1, created_at := 0, completed_at := none }

/-- A sample completed task of the same owner. -/
def sampleCompletedTask : Task :=
  { id := 2, title := "Lavar ropa", description := none,
    status := "completada", user := 1, created_at := 0, completed_at := some 3 }

theorem title_basic_never_ok (v : String) :
    (validate_title_basic v).isOk = false := by
  unfold validate_title_basic
  dsimp only
  repeat' split <;> try rfl

theorem title_complete_never_ok (v : String) (user : Option Nat)
    (db : List Task) (ex : Option Nat) :
    (validate_title_complete v user db ex).isOk = false := by
  unfold validate_title_complete
  rcases h : validate_title_basic v with e | r
  · rfl
  · have := title_basic_never_ok v
    rw [h] at this
    simp [Except.isOk, Except.toBool] at this

/-- C1: the claim says every valid title makes title validation succeed
and return `T.strip()`.  In the code `validate_title_basic` ends in
`return cleaned_title` while the local it bound is `cleaned_value` (and
`validate_title_complete` has the mirror-image slip), so a title that
passes every check raises `NameError` instead of being returned: title
validation never succeeds, on `"abc"` and on every other input. -/
theorem validate_title_always_raises :
    validate_title_basic "abc" = .error (.nameError "cleaned_title") ∧
    (∀ v : String, (validate_title_basic v).isOk = false) ∧
    (∀ (v : String) (user : Option Nat) (db : List Task) (ex : Option Nat),
      (validate_title_complete v user db ex).isOk = false) := by
  refine ⟨by rfl, title_basic_never_ok, title_complete_never_ok⟩

/-- C10: `mark_as_completed` completes a non-completed task (setting a
non-null `completed_at`) and returns `True`; on an already-completed
task it returns `False` and changes nothing, so a second consecutive
call never changes the state. -/
theorem mark_as_completed_idempotent (t : Task) (now now2 : Nat) :
    (t.status ≠ "completada" →
      t.mark_as_completed now
        = ({ t with status := "completada", completed_at := some now }, true)) ∧
    (t.status = "completada" → t.mark_as_completed now = (t, false)) ∧
    ((t.mark_as_completed now).1.completed_at.isSome = true →
      True) ∧
    ((t.mark_as_completed now).1.mark_as_completed now2
      = ((t.mark_as_completed now).1, false)) := by
  unfold Task.mark_as_completed
  by_cases h : t.status = "completada" <;> simp [h]

theorem mark_as_completed_idempotent_witness :
    sampleTask.status ≠ "completada" ∧
    sampleTask.mark_as_completed 5
      = ({ sampleTask with status := "completada", completed_at := some 5 }, true) ∧
    (sampleTask.mark_as_completed 5).1.mark_as_completed 7
      = ((sampleTask.mark_as_completed 5).1, false) :=
  ⟨by decide,
   (mark_as_completed_idempotent sampleTask 5 7).1 (by decide),
   (mark_as_completed_idempotent sampleTask 5 7).2.2.2⟩

/-- C6: a same-value status change never fails, and between distinct
valid statuses the allowed-transition relation of
`validate_status_transition` is exactly the table the specification
gives (all six ordered pairs of distinct statuses). -/
theorem status_transition_table :
    (∀ s ∈ valid_statuses, (validate_status_transition s s).isOk = true) ∧
    (∀ c ∈ valid_statuses, ∀ n ∈ valid_statuses, c ≠ n →
      ((validate_status_transition c n).isOk = true ↔
        (c, n) ∈ claimed_transitions)) := by
  decide

theorem status_transition_table_witness :
    (validate_status_transition "pendiente" "pendiente").isOk = true ∧
    ((validate_status_transition "completada" "pendiente").isOk = true ↔
      ("completada", "pendiente") ∈ claimed_transitions) :=
  ⟨status_transition_table.1 "pendiente" (by decide),
   status_transition_table.2 "completada" (by decide) "pendiente" (by decide)
     (by decide)⟩

/-- C7: creation-mode status validation accepts exactly `pendiente` and
`en_progreso`; in particular `completada` is rejected with a
`ValidationError`, and a create request whose status is `completada`
never produces a task. -/
theorem creation_rejects_completed :
    (∀ s : String, (validate_status_for_creation s).isOk = true ↔
      (s = "pendiente" ∨ s = "en_progreso")) ∧
    validate_status_for_creation "completada"
      = .error (.validationError
          "Una nueva tarea no puede crearse con estado completada. Use pendiente o en_progreso.") ∧
    (∀ (db : List Task) (requester : Nat) (title : Option String)
        (descr : Option (Option String)) (now newId : Nat),
      (create_view db requester title descr (some "completada") now newId).isOk
        = false) := by
  refine ⟨fun s => ?_, by rfl, fun db requester title descr now newId => ?_⟩
  · unfold validate_status_for_creation validate_status_basic
    by_cases h1 : s = "pendiente"
    · subst h1; decide
    · by_cases h2 : s = "en_progreso"
      · subst h2; decide
      · by_cases h3 : s = "completada"
        · subst h3; decide
        · simp [valid_statuses, STATUS_CHOICES, h1, h2, h3, Except.isOk,
            Except.toBool]
  · unfold create_view
    rcases title with _ | rawTitle
    · rfl
    · rcases h : validate_title_complete rawTitle (some requester) db none
        with e | tv
      · simp [h, Except.isOk, Except.toBool]
      · have := title_complete_never_ok rawTitle (some requester) db none
        rw [h] at this
        simp [Except.isOk, Except.toBool] at this

/-- On success the object-level validation hands the attributes through
unchanged, the requester owns the task, and on a completed task only the
`description` key can be present. -/
theorem validate_complete_ok_facts (attrs : Attrs) (u : Nat) (t : Task)
    (v : Attrs)
    (h : validate_complete_serializer_data attrs u (some t) false = .ok v) :
    v = attrs ∧ t.user = u ∧
      (t.status = "completada" →
        attrs.title = none ∧ attrs.status = none ∧ attrs.completed_at = none) := by
  unfold validate_complete_serializer_data validate_ownership
    validate_completed_task_restrictions at h
  by_cases hu : t.user = u
  · simp only [hu, ne_eq, not_true_eq_false, if_false, ite_false] at h
    by_cases hc : t.status = "completada"
    · simp only [hc, if_true, ite_true] at h
      by_cases hf : attrs.keys.filter
          (fun field => !(["description"].contains field)) = []
      · have hkeys : ∀ k ∈ attrs.keys, k = "description" := by
          intro k hk
          by_contra hkd
          have : k ∈ attrs.keys.filter
              (fun field => !(["description"].contains field)) :=
            List.mem_filter.2 ⟨hk, by simp [hkd]⟩
          rw [hf] at this
          exact absurd this (List.not_mem_nil k)
        have htitle : attrs.title = none := by
          cases hti : attrs.title with
          | none => rfl
          | some x =>
              have : "title" ∈ attrs.keys := by simp [Attrs.keys, hti]
              exact absurd (hkeys _ this) (by decide)
        have hstatus : attrs.status = none := by
          cases hst : attrs.status with
          | none => rfl
          | some x =>
              have : "status" ∈ attrs.keys := by simp [Attrs.keys, hst]
              exact absurd (hkeys _ this) (by decide)
        have hca : attrs.completed_at = none := by
          cases hco : attrs.completed_at with
          | none => rfl
          | some x =>
              have : "completed_at" ∈ attrs.keys := by simp [Attrs.keys, hco]
              exact absurd (hkeys _ this) (by decide)
        simp only [hf, hstatus, ne_eq, not_true_eq_false, if_false,
          ite_false, reduceCtorEq] at h
        refine ⟨?_, hu, fun _ => ⟨htitle, hstatus, hca⟩⟩
        cases h
        rfl
      · have hex : ∃ x ∈ attrs.keys, ¬x = "description" := by simpa using hf
        simp [hex] at h
    · simp only [hc, if_false, ite_false] at h
      rcases hst : attrs.status with _ | s
      · simp only [hst] at h
        cases h
        exact ⟨rfl, hu, fun hcc => absurd hcc hc⟩
      · simp only [hst] at h
        rcases htr : validate_status_transition t.status s with e | u2
        · rw [htr] at h; cases h
        · rw [htr] at h
          cases h
          exact ⟨rfl, hu, fun hcc => absurd hcc hc⟩
  · simp [hu] at h

/-- C3: on a task whose current status is `completada`, object-level
update validation rejects any validated field set containing a key other
than `description`, while a field set holding only `description` passes,
and the resulting update changes the description alone (status and
`completed_at` untouched). -/
theorem completed_task_update_restrictions (t : Task)
    (ht : t.status = "completada") :
    (∀ attrs : Attrs, (∃ k ∈ attrs.keys, k ≠ "description") →
      (validate_complete_serializer_data attrs t.user (some t) false).isOk
        = false) ∧
    (∀ dv : Option String,
      validate_complete_serializer_data { description := some dv } t.user
        (some t) false = .ok { description := some dv }) ∧
    (∀ (dv : Option String) (now : Nat),
      serializer_update t t.user { description := some dv } now
        = .ok { t with description := dv }) := by
  have hrestr : ∀ dv : Option String,
      validate_complete_serializer_data { description := some dv } t.user
        (some t) false = .ok { description := some dv } := by
    intro dv
    unfold validate_complete_serializer_data validate_ownership
      validate_completed_task_restrictions
    simp [ht, Attrs.keys]
  refine ⟨fun attrs hex => ?_, hrestr, fun dv now => ?_⟩
  · obtain ⟨k, hk, hkd⟩ := hex
    unfold validate_complete_serializer_data validate_ownership
      validate_completed_task_restrictions
    have hne : attrs.keys.filter
        (fun field => !(["description"].contains field)) ≠ [] :=
      List.ne_nil_of_mem (List.mem_filter.2 ⟨hk, by simp [hkd]⟩)
    have hex2 : ∃ x ∈ attrs.keys, ¬x = "description" := ⟨k, hk, hkd⟩
    simp [ht, hex2, Except.isOk, Except.toBool]
  · unfold serializer_update
    rw [hrestr dv]
    unfold perform_update handle_status_transition setattrs
    simp [ht]

theorem completed_task_update_restrictions_witness :
    sampleCompletedTask.status = "completada" ∧
    (validate_complete_serializer_data { status := some "pendiente" }
        sampleCompletedTask.user (some sampleCompletedTask) false).isOk
      = false ∧
    serializer_update sampleCompletedTask sampleCompletedTask.user
        { description := some (some "ropa limpia") } 9
      = .ok { sampleCompletedTask with description := some "ropa limpia" } :=
  ⟨by decide,
   (completed_task_update_restrictions sampleCompletedTask (by decide)).1
     { status := some "pendiente" } ⟨"status", by decide, by decide⟩,
   (completed_task_update_restrictions sampleCompletedTask (by decide)).2.2
     (some "ropa limpia") 9⟩

/-- C4: every task-mutating operation preserves the invariant
`completed_at` non-null iff `status = completada`: the three `mark_as_*`
model methods, the model `change_status` (which moreover stamps
`completed_at = now` exactly on transitions into `completada` and clears
it on every other change), creation from creation-validated data, and a
serializer update on arbitrary validated fields. -/
theorem completed_at_invariant_preserved :
    (∀ (t : Task) (now : Nat), completedInvariant t →
      completedInvariant (t.mark_as_completed now).1) ∧
    (∀ t : Task, completedInvariant t →
      completedInvariant t.mark_as_pending.1) ∧
    (∀ t : Task, completedInvariant t →
      completedInvariant t.mark_as_in_progress.1) ∧
    (∀ (t : Task) (s : String) (now : Nat) (r : Task) (b : Bool),
      completedInvariant t → t.change_status s now = .ok (r, b) →
      completedInvariant r) ∧
    (∀ (t : Task) (s : String) (now : Nat) (r : Task),
      t.change_status s now = .ok (r, true) →
      r.completed_at = if s = "completada" then some now else none) ∧
    (∀ (raw s title : String) (descr : Option String) (user now newId : Nat),
      validate_status_for_creation raw = .ok s →
      completedInvariant (serializer_create title descr s user now newId)) ∧
    (∀ (t : Task) (user : Nat) (attrs : Attrs) (now : Nat) (r : Task),
      completedInvariant t → attrs.completed_at = none →
      serializer_update t user attrs now = .ok r → completedInvariant r) := by
  refine ⟨?_, ?_, ?_, ?_, ?_, ?_, ?_⟩
  · intro t now hinv
    unfold Task.mark_as_completed
    by_cases h : t.status = "completada"
    · simp only [h, ne_eq, not_true_eq_false, if_false, ite_false]
      exact hinv
    · simp [h, completedInvariant]
  · intro t hinv
    unfold Task.mark_as_pending
    by_cases h : t.status = "pendiente"
    · simp only [h, ne_eq, not_true_eq_false, if_false, ite_false]
      exact hinv
    · simp [h, completedInvariant]
  · intro t hinv
    unfold Task.mark_as_in_progress
    by_cases h : t.status = "en_progreso"
    · simp only [h, ne_eq, not_true_eq_false, if_false, ite_false]
      exact hinv
    · simp [h, completedInvariant]
  · intro t s now r b hinv h
    unfold Task.change_status at h
    split at h
    · exact Except.noConfusion h
    · split at h
      · rw [Except.ok.injEq, Prod.mk.injEq] at h
        obtain ⟨hr, -⟩ := h
        subst hr
        by_cases hc : s = "completada" <;> simp [completedInvariant, hc]
      · rw [Except.ok.injEq, Prod.mk.injEq] at h
        obtain ⟨hr, -⟩ := h
        subst hr
        exact hinv
  · intro t s now r h
    unfold Task.change_status at h
    split at h
    · exact Except.noConfusion h
    · split at h
      · rw [Except.ok.injEq, Prod.mk.injEq] at h
        obtain ⟨hr, -⟩ := h
        subst hr
        rfl
      · rw [Except.ok.injEq, Prod.mk.injEq] at h
        obtain ⟨-, hb⟩ := h
        exact Bool.noConfusion hb
  · intro raw s title descr user now newId h
    unfold validate_status_for_creation at h
    rcases hb : validate_status_basic raw with e | v
    · rw [hb] at h
      exact Except.noConfusion h
    · rw [hb] at h
      dsimp only at h
      by_cases hc : v = "completada"
      · rw [if_pos hc] at h
        exact Except.noConfusion h
      · rw [if_neg hc] at h
        rw [Except.ok.injEq] at h
        subst h
        simp [completedInvariant, serializer_create, hc]
  · intro t user attrs now r hinv hca h
    unfold serializer_update at h
    rcases hv : validate_complete_serializer_data attrs user (some t) false
      with e | validated
    · rw [hv] at h
      exact Except.noConfusion h
    · rw [hv] at h
      rw [Except.ok.injEq] at h
      subst h
      obtain ⟨hva, -, hcfacts⟩ := validate_complete_ok_facts attrs user t _ hv
      rw [hva]
      unfold perform_update handle_status_transition setattrs
      rcases hst : attrs.status with _ | s
      · simpa [completedInvariant, hst, hca] using hinv
      · have hnc : t.status ≠ "completada" := by
          intro hcc
          have := (hcfacts hcc).2.1
          rw [hst] at this
          exact Option.noConfusion this
        have hnone : t.completed_at = none := by
          rcases hco : t.completed_at with _ | x
          · rfl
          · exact absurd (hinv.mp (by rw [hco]; rfl)) hnc
        by_cases hsc : s = "completada"
        · simp [completedInvariant, hst, hsc, hnc]
        · simp [completedInvariant, hst, hsc, hnc, hca, hnone]

theorem completed_at_invariant_preserved_witness :
    completedInvariant (sampleTask.mark_as_completed 5).1 ∧
    completedInvariant sampleCompletedTask.mark_as_pending.1 ∧
    completedInvariant sampleCompletedTask.mark_as_in_progress.1 ∧
    completedInvariant
      ({ sampleTask with status := "completada", completed_at := some 5 }) ∧
    ({ sampleTask with
        status := "completada", completed_at := some 5 } : Task).completed_at
      = (if "completada" = "completada" then some 5 else none) ∧
    completedInvariant (serializer_create "Comprar pan" none "pendiente" 1 0 3) ∧
    completedInvariant
      ({ sampleTask with status := "completada", completed_at := some 7 }) :=
  ⟨completed_at_invariant_preserved.1 sampleTask 5
     (by unfold completedInvariant; decide),
   completed_at_invariant_preserved.2.1 sampleCompletedTask
     (by unfold completedInvariant; decide),
   completed_at_invariant_preserved.2.2.1 sampleCompletedTask
     (by unfold completedInvariant; decide),
   completed_at_invariant_preserved.2.2.2.1 sampleTask "completada" 5 _ true
     (by unfold completedInvariant; decide) rfl,
   completed_at_invariant_preserved.2.2.2.2.1 sampleTask "completada" 5 _ rfl,
   completed_at_invariant_preserved.2.2.2.2.2.1 "pendiente" "pendiente"
     "Comprar pan" none 1 0 3 rfl,
   completed_at_invariant_preserved.2.2.2.2.2.2 sampleTask 1
     { status := some "completada" } 7 _
     (by unfold completedInvariant; decide) rfl rfl⟩

theorem insertDesc_perm (x : Task) (l : List Task) :
    (insertDesc x l).Perm (x :: l) := by
  induction l with
  | nil => exact List.Perm.refl _
  | cons y ys ih =>
      unfold insertDesc
      split
      · exact List.Perm.refl _
      · exact ((ih.cons y).trans (List.Perm.swap x y ys))

theorem order_by_created_desc_perm (l : List Task) :
    (order_by_created_desc l).Perm l := by
  induction l with
  | nil => exact List.Perm.refl _
  | cons x xs ih =>
      unfold order_by_created_desc
      exact (insertDesc_perm x (order_by_created_desc xs)).trans (ih.cons x)

theorem mem_get_queryset (db : List Task) (u : Nat) (t : Task) :
    t ∈ get_queryset db u ↔ (t ∈ db ∧ t.user = u) := by
  unfold get_queryset
  rw [(order_by_created_desc_perm _).mem_iff, List.mem_filter]
  simp

/-- A task delivered by `get_object` lies in the database, belongs to the
requester, and carries the requested primary key. -/
theorem get_object_facts (db : List Task) (u pk : Nat) (t : Task)
    (h : get_object db u pk = some t) : t ∈ db ∧ t.user = u ∧ t.id = pk := by
  unfold get_object at h
  have hp := List.find?_some h
  have hm := List.mem_of_find?_eq_some h
  rw [mem_get_queryset] at hm
  exact ⟨hm.1, hm.2, by simpa using hp⟩

/-- C2 counterexample: on a completed task the two endpoints disagree.
`change_status` reopens the task (the model method never checks the
completed-task restriction), while the serializer update of the same
single `status` field is rejected. -/
theorem change_status_vs_update_status_counterexample :
    ¬ resultsAgree
        (change_status_view [sampleCompletedTask] 1 2 (some "pendiente") 5)
        (update_status_view [sampleCompletedTask] 1 2 "pendiente" 5) ∧
    change_status_view [sampleCompletedTask] 1 2 (some "pendiente") 5
      = .ok { sampleCompletedTask with
                status := "pendiente", completed_at := none } ∧
    (update_status_view [sampleCompletedTask] 1 2 "pendiente" 5).isOk
      = false :=
  ⟨fun h => h, rfl, rfl⟩

/-- C2 (amended): when the task the endpoints find is not completed (its
status is `pendiente` or `en_progreso` and, per the C4 invariant,
`completed_at` is null), `change_status` and the status-only serializer
update agree: the same requests fail, and successful requests produce
the same resulting task.  On completed tasks they disagree, as the
counterexample shows. -/
theorem change_status_matches_update_on_active (db : List Task)
    (requester pk : Nat) (s : String) (now : Nat)
    (h : ∀ t, get_object db requester pk = some t →
        (t.status = "pendiente" ∨ t.status = "en_progreso")
          ∧ t.completed_at = none) :
    resultsAgree (change_status_view db requester pk (some s) now)
      (update_status_view db requester pk s now) := by
  unfold change_status_view update_status_view
  rcases hg : get_object db requester pk with _ | t
  · exact trivial
  · obtain ⟨hstat, hca⟩ := h t hg
    obtain ⟨-, hu, -⟩ := get_object_facts db requester pk t hg
    have hnc : t.status ≠ "completada" := by
      rcases hstat with h1 | h1 <;> rw [h1] <;> decide
    by_cases hs0 : s = ""
    · subst hs0
      exact trivial
    · by_cases hv : s ∈ valid_statuses
      · have h1 : validate_status_view (some s) = .ok s := by
          unfold validate_status_view
          dsimp only
          rw [if_neg hs0, if_neg (not_not_intro hv)]
        have h2 : validate_status_basic s = .ok s := by
          unfold validate_status_basic
          rw [if_neg (not_not_intro hv)]
        rw [h1, h2]
        by_cases hts : t.status = s
        · subst hts
          simp [Task.change_status, serializer_update,
            validate_complete_serializer_data, validate_ownership,
            validate_completed_task_restrictions, validate_status_transition,
            perform_update, handle_status_transition, setattrs,
            resultsAgree, hu, hnc, hv, hca]
          rw [← hu, ← hca]
        · have hvs : s = "pendiente" ∨ s = "en_progreso" ∨ s = "completada" := by
            simpa [valid_statuses, STATUS_CHOICES] using hv
          have htrans : s ∈ valid_transitions t.status := by
            rcases hstat with h3 | h3 <;> rw [h3] <;> unfold valid_transitions
            · rcases hvs with h4 | h4 | h4 <;> subst h4
              · exact absurd h3 (by simpa using hts)
              · decide
              · decide
            · rcases hvs with h4 | h4 | h4 <;> subst h4
              · decide
              · exact absurd h3 (by simpa using hts)
              · decide
          by_cases hsc : s = "completada"
          · subst hsc
            simp [Task.change_status, serializer_update,
              validate_complete_serializer_data, validate_ownership,
              validate_completed_task_restrictions, validate_status_transition,
              perform_update, handle_status_transition, setattrs,
              resultsAgree, hu, hnc, htrans, hts, hv, hca]
          · simp [Task.change_status, serializer_update,
              validate_complete_serializer_data, validate_ownership,
              validate_completed_task_restrictions, validate_status_transition,
              perform_update, handle_status_transition, setattrs,
              resultsAgree, hu, hnc, htrans, hts, hv, hca, hsc]
      · have h1 : validate_status_view (some s)
            = .error (.badRequest "Estado invalido.") := by
          unfold validate_status_view
          dsimp only
          rw [if_neg hs0, if_pos hv]
        have h2 : validate_status_basic s
            = .error (.validationError "Estado invalido.") := by
          unfold validate_status_basic
          rw [if_pos hv]
        rw [h1, h2]
        exact trivial

theorem change_status_matches_update_witness :
    resultsAgree (change_status_view [sampleTask] 1 1 (some "completada") 4)
      (update_status_view [sampleTask] 1 1 "completada" 4) :=
  change_status_matches_update_on_active [sampleTask] 1 1 "completada" 4
    (fun t ht => by
      have hsame : some sampleTask = some t := by rw [← ht]; rfl
      cases hsame
      exact ⟨Or.inl rfl, rfl⟩)

/-- C5: for distinct users A and B and a task T owned by A (primary keys
being unique), user B sees nothing of T: B's list never contains T and
only ever contains B's tasks, the object lookup behind retrieve, update
(status or description), change_status and destroy answers not-found,
and the explicit ownership validation rejects B. -/
theorem owner_isolation (db : List Task) (A B : Nat) (T : Task) (s : String)
    (d : Option String) (now : Nat)
    (hAB : A ≠ B) (hTA : T.user = A)
    (hid : ∀ u ∈ db, u.id = T.id → u = T) :
    T ∉ get_queryset db B ∧
    (∀ u ∈ get_queryset db B, u.user = B) ∧
    get_object db B T.id = none ∧
    retrieve_view db B T.id = .error .notFound ∧
    update_status_view db B T.id s now = .error .notFound ∧
    update_description_view db B T.id d now = .error .notFound ∧
    change_status_view db B T.id (some s) now = .error .notFound ∧
    destroy_view db B T.id = .error .notFound ∧
    (validate_ownership T B).isOk = false := by
  have hq : ∀ u ∈ get_queryset db B, u.user = B := by
    intro u hu
    exact ((mem_get_queryset db B u).1 hu).2
  have hnotmem : T ∉ get_queryset db B := by
    intro hmem
    exact hAB (hTA ▸ hq T hmem)
  have hnone : get_object db B T.id = none := by
    unfold get_object
    rw [List.find?_eq_none]
    intro u hu hbeq
    have huB : u.user = B := hq u hu
    have huid : u.id = T.id := by simpa using hbeq
    have hudb : u ∈ db := ((mem_get_queryset db B u).1 hu).1
    have huT : u = T := hid u hudb huid
    rw [huT, hTA] at huB
    exact hAB huB
  refine ⟨hnotmem, hq, hnone, ?_, ?_, ?_, ?_, ?_, ?_⟩
  · unfold retrieve_view
    rw [hnone]
  · unfold update_status_view
    rw [hnone]
  · unfold update_description_view
    rw [hnone]
  · unfold change_status_view
    rw [hnone]
  · unfold destroy_view
    rw [hnone]
  · unfold validate_ownership
    rw [if_pos (by rw [hTA]; exact hAB)]
    rfl

theorem owner_isolation_witness :
    sampleTask ∉ get_queryset [sampleTask] 2 ∧
    get_object [sampleTask] 2 sampleTask.id = none ∧
    retrieve_view [sampleTask] 2 sampleTask.id = .error .notFound ∧
    destroy_view [sampleTask] 2 sampleTask.id = .error .notFound ∧
    (validate_ownership sampleTask 2).isOk = false :=
  have h := owner_isolation [sampleTask] 1 2 sampleTask "completada" none 4
    (by decide) rfl (by decide)
  ⟨h.1, h.2.2.1, h.2.2.2.1, h.2.2.2.2.2.2.2.1, h.2.2.2.2.2.2.2.2⟩

theorem queryset_length (db : List Task) (u : Nat) :
    (get_queryset db u).length = db.countP (fun t => t.user == u) := by
  unfold get_queryset
  rw [(order_by_created_desc_perm _).length_eq]
  rw [← List.countP_eq_length_filter]

theorem queryset_filter_length (db : List Task) (u : Nat) (p : Task → Bool) :
    ((get_queryset db u).filter p).length
      = db.countP (fun t => t.user == u && p t) := by
  unfold get_queryset
  rw [← List.countP_eq_length_filter]
  rw [List.Perm.countP_eq _ (order_by_created_desc_perm _)]
  rw [List.countP_filter]
  congr 1
  funext t
  exact Bool.and_comm _ _

/-- C8: `stats` returns, for the requesting owner, exactly the per-status
counts of that owner's tasks in the database, the count completed on the
current date, and the completion rate `completed/total*100` rounded to
two decimals, 0 when the owner has no tasks - in which case every count
is 0 as well. -/
theorem stats_correct (db : List Task) (u today : Nat) :
    (stats_view db u today).total = db.countP (fun t => t.user == u) ∧
    (stats_view db u today).pendiente
      = db.countP (fun t => t.user == u && t.status == "pendiente") ∧
    (stats_view db u today).en_progreso
      = db.countP (fun t => t.user == u && t.status == "en_progreso") ∧
    (stats_view db u today).completada
      = db.countP (fun t => t.user == u && t.status == "completada") ∧
    (stats_view db u today).completed_today
      = db.countP (fun t => t.user == u && (t.status == "completada"
          && t.completed_at.map dateOf == some today)) ∧
    (stats_view db u today).completion_rate
      = (if db.countP (fun t => t.user == u) = 0 then 0 else
          pyRound2
            ((db.countP (fun t => t.user == u && t.status == "completada") : ℚ)
              / (db.countP (fun t => t.user == u) : ℚ) * 100)) ∧
    (db.countP (fun t => t.user == u) = 0 →
      (stats_view db u today).pendiente = 0 ∧
      (stats_view db u today).en_progreso = 0 ∧
      (stats_view db u today).completada = 0 ∧
      (stats_view db u today).completed_today = 0 ∧
      (stats_view db u today).completion_rate = 0) := by
  have htotal : (stats_view db u today).total
      = db.countP (fun t => t.user == u) := queryset_length db u
  have hpend : (stats_view db u today).pendiente
      = db.countP (fun t => t.user == u && t.status == "pendiente") :=
    queryset_filter_length db u _
  have hprog : (stats_view db u today).en_progreso
      = db.countP (fun t => t.user == u && t.status == "en_progreso") :=
    queryset_filter_length db u _
  have hcomp : (stats_view db u today).completada
      = db.countP (fun t => t.user == u && t.status == "completada") :=
    queryset_filter_length db u _
  have htoday : (stats_view db u today).completed_today
      = db.countP (fun t => t.user == u && (t.status == "completada"
          && t.completed_at.map dateOf == some today)) :=
    queryset_filter_length db u _
  have hrate : (stats_view db u today).completion_rate
      = (if db.countP (fun t => t.user == u) = 0 then 0 else
          pyRound2
            ((db.countP (fun t => t.user == u && t.status == "completada") : ℚ)
              / (db.countP (fun t => t.user == u) : ℚ) * 100)) := by
    show (if (get_queryset db u).length > 0 then
        pyRound2
          ((((get_queryset db u).filter
              (fun t => t.status == "completada")).length : ℚ)
            / ((get_queryset db u).length : ℚ) * 100)
      else 0) = _
    rw [queryset_length, queryset_filter_length]
    by_cases h0 : db.countP (fun t => t.user == u) = 0
    · simp [h0]
    · rw [if_pos (Nat.pos_of_ne_zero h0), if_neg h0]
  have hle : ∀ p : Task → Bool, db.countP (fun t => t.user == u) = 0 →
      db.countP (fun t => t.user == u && p t) = 0 := by
    intro p h0
    have hm : db.countP (fun t => t.user == u && p t)
        ≤ db.countP (fun t => t.user == u) :=
      List.countP_mono_left
        (fun x _ hpx => ((Bool.and_eq_true _ _).mp hpx).1)
    rw [h0] at hm
    exact Nat.le_zero.mp hm
  refine ⟨htotal, hpend, hprog, hcomp, htoday, hrate, fun h0 => ?_⟩
  refine ⟨?_, ?_, ?_, ?_, ?_⟩
  · rw [hpend]; exact hle _ h0
  · rw [hprog]; exact hle _ h0
  · rw [hcomp]; exact hle _ h0
  · rw [htoday]; exact hle _ h0
  · rw [hrate, if_pos h0]

theorem stats_correct_witness :
    (stats_view [sampleTask, sampleCompletedTask] 1 0).total
      = [sampleTask, sampleCompletedTask].countP (fun t => t.user == 1) ∧
    (stats_view [sampleTask, sampleCompletedTask] 1 0).completion_rate
      = (if [sampleTask, sampleCompletedTask].countP
              (fun t => t.user == 1) = 0 then 0 else
          pyRound2
            (([sampleTask, sampleCompletedTask].countP
                (fun t => t.user == 1 && t.status == "completada") : ℚ)
              / ([sampleTask, sampleCompletedTask].countP
                  (fun t => t.user == 1) : ℚ) * 100)) ∧
    (stats_view [] 7 0).pendiente = 0 ∧
    (stats_view [] 7 0).completion_rate = 0 :=
  ⟨(stats_correct [sampleTask, sampleCompletedTask] 1 0).1,
   (stats_correct [sampleTask, sampleCompletedTask] 1 0).2.2.2.2.2.1,
   ((stats_correct [] 7 0).2.2.2.2.2.2 rfl).1,
   ((stats_correct [] 7 0).2.2.2.2.2.2 rfl).2.2.2.2⟩

/-- C9: the refresh endpoint does mint a new access token and, when the
owning user resolves, a rotated refresh token (and a malformed or
expired token, or an unresolvable user, behave as claimed) - but the
`token_blacklist` app is absent from `INSTALLED_APPS`, so
`refresh.blacklist()` raises `AttributeError`, the view swallows it, the
server state never changes, and reusing the old refresh token after a
rotation succeeds with a fresh token pair instead of failing with
InvalidToken. -/
theorem refresh_reuse_not_blacklisted :
    blacklist_app_installed = false ∧
    (∀ (st : JwtState) (now fresh_jti : Nat) (tok : Option RToken),
      (refresh_token_view st now fresh_jti tok).map Prod.snd
        = (refresh_token_view st now fresh_jti tok).map (fun _ => st)) ∧
    refresh_token_view demoState 0 10 (some demoToken)
      = .ok ({ access_user := 1,
               new_refresh := some { jti := 10, user_id := 1, exp := 604800 } },
             demoState) ∧
    refresh_token_view demoState 0 11 (some demoToken)
      = .ok ({ access_user := 1,
               new_refresh := some { jti := 11, user_id := 1, exp := 604800 } },
             demoState) ∧
    refresh_token_view demoState 0 10 none
      = .error (.badRequest "Refresh token invalido o expirado") ∧
    refresh_token_view demoState 200 10 (some demoToken)
      = .error (.badRequest "Refresh token invalido o expirado") ∧
    refresh_token_view demoStateNoUser 0 10 (some demoToken)
      = .ok ({ access_user := 1, new_refresh := none }, demoStateNoUser) := by
  refine ⟨rfl, ?_, rfl, rfl, rfl, rfl, rfl⟩
  intro st now fresh_jti tok
  unfold refresh_token_view
  rcases h : refresh_token_construct st now tok with e | r
  · rfl
  · by_cases hu : r.user_id ∈ st.users
    · simp [hu, blacklist_app_installed, INSTALLED_APPS, Except.map]
    · simp [hu, Except.map]

end TodoApi
